import Mathlib

/-!
Verification of the client-side data-access and view-state layer of the
openrecall dashboard frontend.  The TypeScript sources are embedded
shallowly: each React hook's state is a Lean structure, each operation is a
pure function from the pre-state (plus the settled network outcome) to the
post-state, paired with the request it issued (`none` = no request).
-/

namespace OpenRecall

/-- Entry, transcribed from `types.ts` (`interface Entry`). -/
structure Entry where
  id : Nat
  app : String
  title : String
  text : String
  timestamp : Nat
  screenshot_url : String
  formatted_time : String
  relative_time : String
  tags : List String
deriving DecidableEq, Repr

/-- PaginatedResponse, transcribed from `types.ts`. -/
structure PaginatedResponse where
  entries : List Entry
  total : Nat
  page : Nat
  limit : Nat
  has_more : Bool
deriving DecidableEq, Repr

/-- The state of `TimelinePage` (`TimelinePage.tsx` lines 9-13): the five
`useState` hooks `entries`, `loading`, `page`, `hasMore`, `loadingMore`.
There is no error field in the component's state. -/
structure FeedState where
  entries : List Entry
  loading : Bool
  page : Nat
  hasMore : Bool
  loadingMore : Bool
deriving DecidableEq, Repr

/-- Initial feed state (`useState` initialisers in `TimelinePage.tsx`). -/
def FeedState.init : FeedState :=
  { entries := [], loading := true, page := 1, hasMore := false, loadingMore := false }

/-- The synchronous prefix of `fetchEntries` (`TimelinePage.tsx` lines 16-20):
before the request is awaited, `loading` or `loadingMore` is raised depending
on whether the first page is being fetched. -/
def fetchEntriesStart (s : FeedState) (pageNum : Nat) : FeedState :=
  if pageNum = 1 then { s with loading := true } else { s with loadingMore := true }

/-- The continuation of `fetchEntries` after the request settles
(`TimelinePage.tsx` lines 22-35).  On success (`some data`) the entries are
appended (functional `setEntries((prev) => [...prev, ...data.entries])`) or
replaced, and `hasMore` is set from `data.has_more`.  On failure (`none`) the
`catch` block only logs to the console and changes no state.  The `finally`
block clears both loading flags. -/
def fetchEntriesSettle (s : FeedState) (append : Bool) (result : Option PaginatedResponse) : FeedState :=
  let s2 :=
    match result with
    | some data =>
        { s with
          entries := if append then s.entries ++ data.entries else data.entries,
          hasMore := data.has_more }
    | none => s
  { s2 with loading := false, loadingMore := false }

/-- One complete `fetchEntries(pageNum, append)` call whose request settles
with `result` (`none` = the request failed). -/
def fetchEntries (s : FeedState) (pageNum : Nat) (append : Bool)
    (result : Option PaginatedResponse) : FeedState :=
  fetchEntriesSettle (fetchEntriesStart s pageNum) append result

/-- The synchronous part of `loadMore` (`TimelinePage.tsx` lines 42-48): the
guard `!loadingMore && hasMore`, the `setPage(nextPage)` update and the
synchronous prefix of `fetchEntries(nextPage, true)`.  The second component
is the page number of the request issued, `none` when the guard rejects. -/
def loadMoreStart (s : FeedState) : FeedState × Option Nat :=
  if !s.loadingMore && s.hasMore then
    (fetchEntriesStart { s with page := s.page + 1 } (s.page + 1), some (s.page + 1))
  else
    (s, none)

/-- One complete `loadMore()` call: the guard and page bump, then the settling
of the issued request with `result` (ignored when no request was issued). -/
def loadMore (s : FeedState) (result : Option PaginatedResponse) : FeedState × Option Nat :=
  match loadMoreStart s with
  | (s1, some p) => (fetchEntriesSettle s1 true result, some p)
  | (s1, none) => (s1, none)

/-- The scroll handler (`TimelinePage.tsx` lines 52-60): when the distance to
the bottom of the scroll container is below 200 and the guard conditions
hold, `loadMore()` is invoked; otherwise nothing happens. -/
def handleScroll (s : FeedState) (scrollTop scrollHeight clientHeight : Int)
    (result : Option PaginatedResponse) : FeedState × Option Nat :=
  if scrollHeight - scrollTop - clientHeight < 200 ∧ (!s.loadingMore && s.hasMore) = true then
    loadMore s result
  else
    (s, none)

/-- A sequence of `loadMore()` calls, each settling with the corresponding
element of `results`; returns the final state and the list of page numbers
actually requested, in order. -/
def runLoadMores (s : FeedState) : List (Option PaginatedResponse) → FeedState × List Nat
  | [] => (s, [])
  | r :: rs =>
      let step := loadMore s r
      let rest := runLoadMores step.1 rs
      (rest.1, (step.2.toList) ++ rest.2)

/-- SearchResult, transcribed from `types.ts` (`interface SearchResult extends
Entry`).  The relevance score is carried opaquely by the client (it never
computes with it), so it is embedded as an integer payload. -/
structure SearchResult extends Entry where
  similarity_score : Int
deriving DecidableEq, Repr

/-- SearchResponse, transcribed from `types.ts`. -/
structure SearchResponse where
  query : String
  results : List SearchResult
  total : Nat
deriving DecidableEq, Repr

/-- Whitespace recognised by `String.prototype.trim` on the characters this
client deals with. -/
def jsWhitespace (c : Char) : Bool :=
  c == ' ' || c == '\t' || c == '\n' || c == '\r'

/-- Trimming of a character list from both ends. -/
def jsTrimList (cs : List Char) : List Char :=
  ((cs.dropWhile jsWhitespace).reverse.dropWhile jsWhitespace).reverse

/-- Embedding of JavaScript `q.trim()`. -/
def jsTrim (s : String) : String :=
  String.mk (jsTrimList s.data)

/-- The state of `useSearch` (`useSearch.ts`): the `useState` hooks `results`,
`loading`, `error`, `query`. -/
structure SearchState where
  results : List SearchResult
  loading : Bool
  error : Option String
  query : String
deriving DecidableEq, Repr

/-- One complete `search(searchQuery, limit)` call from `useSearch.ts`.  If
the trimmed query is empty (`!searchQuery.trim()`), results and query are
cleared and the function returns without a request.  Otherwise `loading` is
raised, `error` cleared, `query` set, and the request issued; on success the
results are replaced wholesale, on failure `error` is set and `results`
cleared; `finally` lowers `loading`.  The second component is the request
issued (`none` = no request). -/
def search (s : SearchState) (searchQuery : String) (limit : Nat)
    (response : Except String SearchResponse) : SearchState × Option (String × Nat) :=
  if jsTrim searchQuery = "" then
    ({ s with results := [], query := "" }, none)
  else
    let s1 := { s with loading := true, error := none, query := searchQuery }
    let s2 :=
      match response with
      | .ok data => { s1 with results := data.results }
      | .error e => { s1 with error := some e, results := [] }
    ({ s2 with loading := false }, some (searchQuery, limit))

/-- The `clear()` operation from `useSearch.ts`: resets results, query and
error. -/
def clear (s : SearchState) : SearchState :=
  { s with results := [], query := "", error := none }

/-- StatusResponse, transcribed from `types.ts`. -/
structure StatusResponse where
  status : String
  recording : Bool
  paused : Bool
  last_capture : Option Nat
  version : String
deriving DecidableEq, Repr

/-- The state of `useStatus` (`useStats.ts`): the `useState` hooks `status`
and `loading`.  There is no error field. -/
structure StatusState where
  status : Option StatusResponse
  loading : Bool
deriving DecidableEq, Repr

/-- One `fetchStatus()` call from `useStats.ts`: on success the status is
replaced; on failure the `catch` block is empty (silent); `finally` lowers
`loading`.  Covers the mount fetch, each 30-second interval tick and the
manual `refetch()` alike, all of which invoke the same callback. -/
def fetchStatus (s : StatusState) (response : Option StatusResponse) : StatusState :=
  match response with
  | some data => { s with status := some data, loading := false }
  | none => { s with loading := false }

/-- The three buckets rendered by `StatusIndicator`. -/
inductive StatusBucket
  | active
  | paused
  | inactive
deriving DecidableEq, Repr

/-- The bucket choice made in `Header.tsx`:
`status?.recording ? 'active' : status?.paused ? 'paused' : 'inactive'`. -/
def statusBucket (st : Option StatusResponse) : StatusBucket :=
  match st with
  | some s => if s.recording then .active else if s.paused then .paused else .inactive
  | none => .inactive

end OpenRecall

namespace OpenRecall

/-- A concrete entry used in counterexample states. -/
def sampleEntry : Entry :=
  { id := 1, app := "Safari", title := "t", text := "x", timestamp := 100,
    screenshot_url := "u", formatted_time := "f", relative_time := "r", tags := [] }

/-- Feed state holding one accumulated entry, more pages available. -/
def feedBeforeFailure : FeedState :=
  { entries := [sampleEntry], loading := false, page := 1, hasMore := true, loadingMore := false }

/-- A successful response carrying an empty page and `has_more = true`. -/
def emptySuccessPage : PaginatedResponse :=
  { entries := [], total := 50, page := 2, limit := 20, has_more := true }

/-- The document state touched by `ScreenshotModal`'s effect
(`ScreenshotModal.tsx`): `document.body.style.overflow` and the number of
registered escape-key listeners. -/
structure DomState where
  overflow : String
  escListeners : Nat
deriving DecidableEq, Repr

/-- The effect body run when the modal opens (`isOpen` true): registers the
escape listener and sets `document.body.style.overflow = 'hidden'`. -/
def modalOpenEffect (d : DomState) : DomState :=
  { overflow := "hidden", escListeners := d.escListeners + 1 }

/-- The effect cleanup run when the modal closes or the component is torn
down: removes the listener and sets `document.body.style.overflow = 'unset'`
(a fixed value, not the value saved before opening). -/
def modalCloseCleanup (d : DomState) : DomState :=
  { overflow := "unset", escListeners := d.escListeners - 1 }

/-- The selection state of `CardGrid` (`selectedEntry`) together with the
document state its modal manipulates. -/
structure ModalState where
  selected : Option Entry
  dom : DomState
deriving DecidableEq, Repr

/-- Selecting an entry (`setSelectedEntry(entry)` in `CardGrid.tsx`): the
modal becomes visible and its open effect runs. -/
def select (m : ModalState) (e : Entry) : ModalState :=
  { selected := some e, dom := modalOpenEffect m.dom }

/-- Dismissing the modal (`setSelectedEntry(null)` via the close button,
backdrop click or escape key, or component teardown): the effect cleanup
runs. -/
def dismiss (m : ModalState) : ModalState :=
  { selected := none, dom := modalCloseCleanup m.dom }

/-- Background scrolling is suppressed exactly when the body overflow style
is `hidden`. -/
def scrollSuppressed (d : DomState) : Bool :=
  d.overflow == "hidden"

/-- AppStats, transcribed from `types.ts`. -/
structure AppStats where
  name : String
  count : Nat
  category : Option String
deriving DecidableEq, Repr

/-- HourlyActivity, transcribed from `types.ts`. -/
structure HourlyActivity where
  hour : Nat
  count : Nat
deriving DecidableEq, Repr

/-- The denominator `StatsPage` passes to each `AppBar` as `maxCount`
(`StatsPage.tsx`): `stats.apps[0]?.count || 1` — the count of the FIRST app
in payload order, replaced by 1 when the list is empty or that count is 0. -/
def appBarDenominator (apps : List AppStats) : Nat :=
  match apps.head? with
  | some a => if a.count = 0 then 1 else a.count
  | none => 1

/-- The denominator used by `HourlyActivityChart` (`StatsPage.tsx`):
`Math.max(...data.map((d) => d.count), 1)`. -/
def hourlyDenominator (data : List HourlyActivity) : Nat :=
  (data.map fun d => d.count).foldr max 1

/-- Modelled from the spec: the maximum of a list of counts with a minimum
denominator of 1, the derived value §4.5 prescribes for both charts. -/
def specMaxCount (counts : List Nat) : Nat :=
  max (counts.foldr max 0) 1

/-- The spec's per-app denominator: maximum app count, floored at 1. -/
def specAppDenominator (apps : List AppStats) : Nat :=
  specMaxCount (apps.map fun a => a.count)

/-- The spec's hourly denominator: maximum hourly count, floored at 1. -/
def specHourlyDenominator (data : List HourlyActivity) : Nat :=
  specMaxCount (data.map fun d => d.count)

/-- A concrete search result used in counterexample states. -/
def sampleResult : SearchResult :=
  { toEntry := sampleEntry, similarity_score := 9 }

/-- Search state with a surfaced error left over from a failed search. -/
def searchStateBefore : SearchState :=
  { results := [sampleResult], loading := false, error := some "boom", query := "old" }

/-- Document state in which scrolling is already suppressed. -/
def domSuppressedBefore : DomState :=
  { overflow := "hidden", escListeners := 0 }

/-- An app list whose first element does not carry the maximal count. -/
def unsortedApps : List AppStats :=
  [{ name := "a", count := 1, category := none },
   { name := "b", count := 5, category := none }]

/-- Helper: a guarded `loadMore` bumps the page and requests exactly it. -/
theorem loadMore_guard_pass (s : FeedState) (r : Option PaginatedResponse)
    (h1 : s.loadingMore = false) (h2 : s.hasMore = true) :
    loadMore s r =
      (fetchEntriesSettle (fetchEntriesStart { s with page := s.page + 1 } (s.page + 1)) true r,
       some (s.page + 1)) := by
  simp [loadMore, loadMoreStart, h1, h2]

/-- Helper: a `loadMore` whose guard rejects is the identity and issues no
request. -/
theorem loadMore_guard_fail (s : FeedState) (r : Option PaginatedResponse)
    (h : s.loadingMore = true ∨ s.hasMore = false) :
    loadMore s r = (s, none) := by
  rcases h with h | h <;> simp [loadMore, loadMoreStart, h]

/-- C1: a successful `loadMore()` whose guard passes appends the response's
entries after the current tail (so the length grows by the page length and
the first N elements are unchanged), sets `hasMore` from the response's
`has_more`, and increments `page` by one. -/
theorem loadMore_success_appends (s : FeedState) (resp : PaginatedResponse)
    (h1 : s.loadingMore = false) (h2 : s.hasMore = true) :
    ((loadMore s (some resp)).1.entries = s.entries ++ resp.entries) ∧
    ((loadMore s (some resp)).1.entries.length = s.entries.length + resp.entries.length) ∧
    ((loadMore s (some resp)).1.entries.take s.entries.length = s.entries) ∧
    ((loadMore s (some resp)).1.hasMore = resp.has_more) ∧
    ((loadMore s (some resp)).1.page = s.page + 1) := by
  rw [loadMore_guard_pass s (some resp) h1 h2]
  refine ⟨?_, ?_, ?_, ?_, ?_⟩ <;>
    simp [fetchEntriesSettle, fetchEntriesStart] <;>
    split <;> simp [List.take_left]

/-- Witness for C1 at a concrete state and response. -/
theorem loadMore_success_appends_witness :
    ((loadMore
        { entries := [], loading := false, page := 1, hasMore := true, loadingMore := false }
        (some { entries := [], total := 0, page := 2, limit := 20, has_more := false })).1.page
      = 2) := by
  have h := loadMore_success_appends
    { entries := [], loading := false, page := 1, hasMore := true, loadingMore := false }
    { entries := [], total := 0, page := 2, limit := 20, has_more := false }
    (by decide) (by decide)
  exact h.2.2.2.2

/-- C2: while `loadingMore` is true, or while `hasMore` is false, `loadMore()`
is a no-op — no request is issued and the whole state (entries, page,
hasMore, loading, loadingMore) is unchanged — and the same holds when the
scroll handler triggers it. -/
theorem loadMore_noop (s : FeedState) (r : Option PaginatedResponse)
    (st sh ch : Int)
    (h : s.loadingMore = true ∨ s.hasMore = false) :
    loadMore s r = (s, none) ∧ handleScroll s st sh ch r = (s, none) := by
  refine ⟨loadMore_guard_fail s r h, ?_⟩
  unfold handleScroll
  rcases h with h | h <;>
    [ simp [h, loadMore_guard_fail s r (Or.inl h)];
      simp [h, loadMore_guard_fail s r (Or.inr h)] ]

/-- Witness for C2: a state in flight (loadingMore true) is left untouched. -/
theorem loadMore_noop_witness :
    loadMore
      { entries := [], loading := false, page := 3, hasMore := true, loadingMore := true }
      none = ({ entries := [], loading := false, page := 3, hasMore := true, loadingMore := true }, none) := by
  exact (loadMore_noop
    { entries := [], loading := false, page := 3, hasMore := true, loadingMore := true }
    none 0 0 0 (Or.inl rfl)).1

/-- Helper: `fetchEntriesStart` does not change the page counter. -/
theorem fetchEntriesStart_page (s : FeedState) (pageNum : Nat) :
    (fetchEntriesStart s pageNum).page = s.page := by
  unfold fetchEntriesStart; split <;> rfl

/-- Helper: `fetchEntriesSettle` does not change the page counter. -/
theorem fetchEntriesSettle_page (s : FeedState) (append : Bool)
    (r : Option PaginatedResponse) : (fetchEntriesSettle s append r).page = s.page := by
  unfold fetchEntriesSettle; cases r <;> rfl

/-- Helper: a failed settlement only clears the loading flags. -/
theorem fetchEntriesSettle_none (s : FeedState) (append : Bool) :
    fetchEntriesSettle s append none = { s with loading := false, loadingMore := false } := rfl

/-- Helper: `fetchEntriesStart` leaves entries, page and hasMore alone. -/
theorem fetchEntriesStart_fields (s : FeedState) (pageNum : Nat) :
    (fetchEntriesStart s pageNum).entries = s.entries ∧
    (fetchEntriesStart s pageNum).page = s.page ∧
    (fetchEntriesStart s pageNum).hasMore = s.hasMore := by
  unfold fetchEntriesStart; split <;> exact ⟨rfl, rfl, rfl⟩

/-- Helper: the full state of a `loadMore` whose guard passes and whose
request fails: only the page counter and the loading flags moved. -/
theorem loadMore_failure_state (s : FeedState)
    (h1 : s.loadingMore = false) (h2 : s.hasMore = true) :
    (loadMore s none).1 =
      { entries := s.entries, loading := false, page := s.page + 1,
        hasMore := s.hasMore, loadingMore := false } := by
  rw [loadMore_guard_pass s none h1 h2]
  simp only [fetchEntriesSettle, fetchEntriesStart]
  split <;> rfl

/-- Helper: every `loadMore` call either leaves the state alone with no
request, or bumps the page by one and requests exactly the new page. -/
theorem loadMore_cases (s : FeedState) (r : Option PaginatedResponse) :
    (loadMore s r = (s, none)) ∨
    ((loadMore s r).1.page = s.page + 1 ∧ (loadMore s r).2 = some (s.page + 1)) := by
  by_cases hg : (!s.loadingMore && s.hasMore) = true
  · right
    have h1 : s.loadingMore = false := by
      cases hL : s.loadingMore <;> simp [hL] at hg ⊢
    have h2 : s.hasMore = true := by
      cases hH : s.hasMore <;> simp [hH] at hg ⊢
    rw [loadMore_guard_pass s r h1 h2]
    exact ⟨by rw [fetchEntriesSettle_page, fetchEntriesStart_page], rfl⟩
  · left
    simp only [loadMore, loadMoreStart, if_neg hg]

/-- Helper: across any sequence of `loadMore` calls, the page counter never
decreases, each issued request is for a page strictly above the starting
page, and the issued requests are pairwise strictly increasing. -/
theorem runLoadMores_requests (rs : List (Option PaginatedResponse)) :
    ∀ s : FeedState,
      s.page ≤ (runLoadMores s rs).1.page ∧
      (∀ p ∈ (runLoadMores s rs).2, s.page < p) ∧
      List.Pairwise (· < ·) (runLoadMores s rs).2 := by
  induction rs with
  | nil => intro s; simp [runLoadMores]
  | cons r rs ih =>
      intro s
      rcases loadMore_cases s r with heq | ⟨hp, hreq⟩
      · have hrw : runLoadMores s (r :: rs) = runLoadMores s rs := by
          simp only [runLoadMores, heq, Option.toList_none, List.nil_append]
        rw [hrw]; exact ih s
      · have hrw : runLoadMores s (r :: rs) =
            ((runLoadMores (loadMore s r).1 rs).1,
              (s.page + 1) :: (runLoadMores (loadMore s r).1 rs).2) := by
          simp only [runLoadMores, hreq, Option.toList_some, List.singleton_append]
        obtain ⟨hle, hmem, hpair⟩ := ih (loadMore s r).1
        rw [hrw]
        refine ⟨?_, ?_, ?_⟩
        · have h' : s.page + 1 ≤ (runLoadMores (loadMore s r).1 rs).1.page := by
            rw [← hp]; exact hle
          exact le_trans (Nat.le_succ s.page) h'
        · intro p hpmem
          rcases List.mem_cons.mp hpmem with h | h
          · omega
          · have := hmem p h; omega
        · refine List.pairwise_cons.mpr ⟨?_, hpair⟩
          intro p h
          have := hmem p h; omega

/-- C3 (amended): a failed `fetchEntries` call — hence a failed `load()` or
`loadMore()` settlement — leaves the accumulated `entries` exactly as they
were, leaves `page` and `hasMore` unchanged, and only clears the loading
flags; no component of the feed state records the failure. -/
theorem fetch_failure_preserves_entries (s : FeedState) (pageNum : Nat) (append : Bool) :
    (fetchEntries s pageNum append none).entries = s.entries ∧
    (fetchEntries s pageNum append none).page = s.page ∧
    (fetchEntries s pageNum append none).hasMore = s.hasMore ∧
    (fetchEntries s pageNum append none).loading = false ∧
    (fetchEntries s pageNum append none).loadingMore = false := by
  unfold fetchEntries
  rw [fetchEntriesSettle_none]
  exact ⟨(fetchEntriesStart_fields s pageNum).1, (fetchEntriesStart_fields s pageNum).2.1,
    (fetchEntriesStart_fields s pageNum).2.2, rfl, rfl⟩

/-- C3 counterexample: at a concrete state, a failed `loadMore` settlement
produces a state identical to that of a successful settlement returning an
empty page — the feed state (which has no error field) cannot surface the
failure, contradicting the claim that a non-none error is surfaced. The
prior entries are preserved. -/
theorem feed_failure_not_surfaced :
    fetchEntries feedBeforeFailure 2 true none =
      fetchEntries feedBeforeFailure 2 true (some emptySuccessPage) ∧
    fetchEntries feedBeforeFailure 2 true none =
      { entries := [sampleEntry], loading := false, page := 1,
        hasMore := true, loadingMore := false } := by
  exact ⟨rfl, rfl⟩

/-- C10: a guarded `loadMore` increments the page counter and issues the
request for it already in its synchronous prefix (before the request
settles); after the request fails the page stays incremented, the next
`loadMore` requests the page after the failed one, and across any sequence
of `loadMore` calls the requested page numbers are pairwise strictly
increasing, so a failed page is never requested again. -/
theorem loadMore_advances_past_failed_page (s : FeedState)
    (r2 : Option PaginatedResponse)
    (h1 : s.loadingMore = false) (h2 : s.hasMore = true) :
    (loadMoreStart s).2 = some (s.page + 1) ∧
    (loadMoreStart s).1.page = s.page + 1 ∧
    (loadMore s none).1.page = s.page + 1 ∧
    (loadMore (loadMore s none).1 r2).2 = some (s.page + 2) ∧
    ∀ rs : List (Option PaginatedResponse),
      List.Pairwise (· < ·) (runLoadMores s rs).2 := by
  have hfail := loadMore_failure_state s h1 h2
  refine ⟨?_, ?_, ?_, ?_, ?_⟩
  · simp [loadMoreStart, h1, h2]
  · simp [loadMoreStart, h1, h2, fetchEntriesStart_page]
  · rw [hfail]
  · rw [hfail]
    rw [loadMore_guard_pass
      { entries := s.entries, loading := false, page := s.page + 1,
        hasMore := s.hasMore, loadingMore := false } r2 rfl h2]
  · intro rs
    exact (runLoadMores_requests rs s).2.2

/-- Witness for C10 at a concrete state. -/
theorem loadMore_advances_past_failed_page_witness :
    (loadMore (loadMore feedBeforeFailure none).1 none).2 = some 3 := by
  exact (loadMore_advances_past_failed_page feedBeforeFailure none rfl rfl).2.2.2.1

/-- C4 (amended): a `search` whose trimmed query is empty issues no request
and clears `results` and `query`, but leaves `error` and `loading` exactly as
they were — so it equals `clear()` only when the prior error was already
none. -/
theorem search_blank_no_request (s : SearchState) (q : String) (lim : Nat)
    (r : Except String SearchResponse) (h : jsTrim q = "") :
    (search s q lim r).2 = none ∧
    (search s q lim r).1.results = [] ∧
    (search s q lim r).1.query = "" ∧
    (search s q lim r).1.error = s.error ∧
    (search s q lim r).1.loading = s.loading := by
  unfold search
  rw [if_pos h]
  exact ⟨rfl, rfl, rfl, rfl, rfl⟩

/-- Witness for C4 (amended) at a blank query on a concrete state. -/
theorem search_blank_no_request_witness :
    (search searchStateBefore "   " 20 (.error "x")).2 = none ∧
    (search searchStateBefore "   " 20 (.error "x")).1.results = [] := by
  have h := search_blank_no_request searchStateBefore "   " 20 (.error "x") (by decide)
  exact ⟨h.1, h.2.1⟩

/-- C4 counterexample: starting from a state with a leftover error, a blank
`search` issues no request but leaves `error = some "boom"`, while `clear()`
resets the error to none — so the post-state of the blank search is NOT the
state `clear()` produces, contradicting the claim. -/
theorem search_blank_differs_from_clear :
    (search searchStateBefore "   " 20 (.error "x")).2 = none ∧
    (search searchStateBefore "   " 20 (.error "x")).1.error = some "boom" ∧
    (clear searchStateBefore).error = none ∧
    ¬ (search searchStateBefore "   " 20 (.error "x")).1 = clear searchStateBefore := by
  refine ⟨rfl, rfl, rfl, ?_⟩
  intro hcontra
  have : (some "boom" : Option String) = none := by
    calc (some "boom" : Option String)
        = (search searchStateBefore "   " 20 (.error "x")).1.error := rfl
      _ = (clear searchStateBefore).error := by rw [hcontra]
      _ = none := rfl
  exact Option.noConfusion this

/-- C5: a failing `search` on a non-blank query clears `results`, surfaces
the error, and leaves `query` equal to the submitted query. -/
theorem search_failure_keeps_query (s : SearchState) (q : String) (lim : Nat)
    (e : String) (h : ¬ jsTrim q = "") :
    (search s q lim (.error e)).1.results = [] ∧
    (search s q lim (.error e)).1.error = some e ∧
    (search s q lim (.error e)).1.query = q ∧
    (search s q lim (.error e)).2 = some (q, lim) := by
  unfold search
  rw [if_neg h]
  exact ⟨rfl, rfl, rfl, rfl⟩

/-- Witness for C5 on the query "meeting". -/
theorem search_failure_keeps_query_witness :
    (search searchStateBefore "meeting" 20 (.error "down")).1.query = "meeting" ∧
    (search searchStateBefore "meeting" 20 (.error "down")).1.error = some "down" := by
  have h := search_failure_keeps_query searchStateBefore "meeting" 20 "down" (by decide)
  exact ⟨h.2.2.1, h.2.1⟩

/-- C6: the view derives exactly one bucket, with precedence recording
first, then paused, else inactive: the bucket is active iff a fetched status
has `recording` true; paused iff it has `recording` false and `paused` true;
inactive iff no status was fetched or both flags are false. -/
theorem statusBucket_precedence (st : Option StatusResponse) :
    (statusBucket st = .active ↔ ∃ s, st = some s ∧ s.recording = true) ∧
    (statusBucket st = .paused ↔ ∃ s, st = some s ∧ s.recording = false ∧ s.paused = true) ∧
    (statusBucket st = .inactive ↔
      st = none ∨ ∃ s, st = some s ∧ s.recording = false ∧ s.paused = false) := by
  cases st with
  | none => simp [statusBucket]
  | some s =>
      cases hr : s.recording <;> cases hp : s.paused <;>
        simp [statusBucket, hr, hp]

/-- C7: a failed `fetchStatus` retains the previously held status unchanged
(none if nothing was fetched yet); the whole post-state is the prior state
with only `loading` lowered, so nothing records the failure — the state has
no error component at all. -/
theorem fetchStatus_failure_silent (s : StatusState) :
    (fetchStatus s none).status = s.status ∧
    fetchStatus s none = { s with loading := false } := by
  exact ⟨rfl, rfl⟩

/-- C8 (amended): `select(e)` followed by `dismiss()` (any exit path runs the
same cleanup) always sets the body overflow to the fixed value "unset", so
suppression is released and never left enabled, and the escape listener is
balanced; the prior suppression state is restored exactly when scrolling was
not suppressed before `select`. -/
theorem modal_dismiss_releases (m : ModalState) (e : Entry)
    (h : scrollSuppressed m.dom = false) :
    ((dismiss (select m e)).dom).overflow = "unset" ∧
    scrollSuppressed ((dismiss (select m e)).dom) = false ∧
    scrollSuppressed ((dismiss (select m e)).dom) = scrollSuppressed m.dom ∧
    (dismiss (select m e)).selected = none ∧
    ((dismiss (select m e)).dom).escListeners = m.dom.escListeners := by
  refine ⟨rfl, ?_, ?_, rfl, ?_⟩
  · show (("unset" : String) == "hidden") = false
    decide
  · rw [h]
    show (("unset" : String) == "hidden") = false
    decide
  · show m.dom.escListeners + 1 - 1 = m.dom.escListeners
    omega

/-- Witness for C8 (amended) from an unsuppressed document state. -/
theorem modal_dismiss_releases_witness :
    scrollSuppressed ((dismiss (select { selected := none, dom := { overflow := "unset", escListeners := 0 } } sampleEntry)).dom)
      = scrollSuppressed ({ overflow := "unset", escListeners := 0 } : DomState) := by
  exact (modal_dismiss_releases
    { selected := none, dom := { overflow := "unset", escListeners := 0 } }
    sampleEntry rfl).2.2.1

/-- C8 counterexample: when scrolling was already suppressed before
`select`, the select/dismiss cycle ends with overflow "unset" — suppression
is NOT left exactly as it was, because the cleanup writes the fixed value
"unset" instead of restoring the saved prior value. -/
theorem modal_dismiss_not_exact_restore :
    scrollSuppressed domSuppressedBefore = true ∧
    scrollSuppressed ((dismiss (select { selected := none, dom := domSuppressedBefore } sampleEntry)).dom) = false := by
  exact ⟨rfl, rfl⟩

/-- Helper: the fold of `max` over a list starting at 0 is at most any upper
bound of the list. -/
theorem foldr_max_le (l : List Nat) (b : Nat) (h : ∀ x ∈ l, x ≤ b) :
    l.foldr max 0 ≤ b := by
  induction l with
  | nil => exact Nat.zero_le b
  | cons x xs ih =>
      refine Nat.max_le.mpr ⟨h x (List.mem_cons_self x xs), ih ?_⟩
      intro y hy
      exact h y (List.mem_cons_of_mem x hy)

/-- Helper: every member of a list is at most the fold of `max` over it. -/
theorem le_foldr_max (l : List Nat) (a : Nat) (h : a ∈ l) :
    a ≤ l.foldr max 0 := by
  induction l with
  | nil => cases h
  | cons x xs ih =>
      rcases List.mem_cons.mp h with h | h
      · rw [h]
        show x ≤ max x (xs.foldr max 0)
        exact Nat.le_max_left x _
      · have hle : xs.foldr max 0 ≤ max x (xs.foldr max 0) := Nat.le_max_right x _
        exact le_trans (ih h) hle

/-- Helper: folding `max` from 1 equals the spec's floored maximum. -/
theorem foldr_max_one (l : List Nat) :
    l.foldr max 1 = max (l.foldr max 0) 1 := by
  induction l with
  | nil => rfl
  | cons x xs ih =>
      show max x (xs.foldr max 1) = max (max x (xs.foldr max 0)) 1
      rw [ih]
      omega

/-- C9 (amended): the hourly chart's denominator equals the maximum hourly
count floored at 1, as the spec says; the per-app denominator is the FIRST
listed app's count (floored at 1 when absent or zero), which coincides with
the spec's floored maximum only when the first app carries a maximal,
positive count — e.g. when the backend lists apps in descending count
order. -/
theorem stats_denominators (data : List HourlyActivity) (apps : List AppStats)
    (a0 : AppStats) (h0 : apps.head? = some a0)
    (hmax : ∀ a ∈ apps, a.count ≤ a0.count) (hpos : 0 < a0.count) :
    hourlyDenominator data = specHourlyDenominator data ∧
    appBarDenominator apps = a0.count ∧
    appBarDenominator apps = specAppDenominator apps := by
  have hhead : a0 ∈ apps := by
    cases apps with
    | nil => cases h0
    | cons x xs =>
        have : x = a0 := by
          have := h0
          simp [List.head?] at this
          exact this
        exact this ▸ List.mem_cons_self x xs
  have hfold : (apps.map fun a => a.count).foldr max 0 = a0.count := by
    refine le_antisymm ?_ ?_
    · refine foldr_max_le _ _ ?_
      intro y hy
      rcases List.mem_map.mp hy with ⟨a, ha, rfl⟩
      exact hmax a ha
    · exact le_foldr_max _ _ (List.mem_map_of_mem (fun a => a.count) hhead)
  refine ⟨?_, ?_, ?_⟩
  · show (data.map fun d => d.count).foldr max 1 = specMaxCount (data.map fun d => d.count)
    rw [foldr_max_one]
    rfl
  · unfold appBarDenominator
    rw [h0]
    show (if a0.count = 0 then 1 else a0.count) = a0.count
    rw [if_neg (by omega)]
  · have h1 : appBarDenominator apps = a0.count := by
      unfold appBarDenominator
      rw [h0]
      show (if a0.count = 0 then 1 else a0.count) = a0.count
      rw [if_neg (by omega)]
    have h2 : specAppDenominator apps = a0.count := by
      show max ((apps.map fun a => a.count).foldr max 0) 1 = a0.count
      rw [hfold]
      omega
    rw [h1, h2]

/-- Witness for C9 (amended) on a descending app list. -/
theorem stats_denominators_witness :
    appBarDenominator
      [{ name := "b", count := 5, category := none },
       { name := "a", count := 1, category := none }] =
    specAppDenominator
      [{ name := "b", count := 5, category := none },
       { name := "a", count := 1, category := none }] := by
  exact (stats_denominators []
    [{ name := "b", count := 5, category := none },
     { name := "a", count := 1, category := none }]
    { name := "b", count := 5, category := none }
    rfl (by decide) (by decide)).2.2

/-- C9 counterexample: when the first listed app does not carry the maximal
count, the code's per-app denominator (first app's count, here 1) differs
from the claimed maximum over all apps (here 5). -/
theorem appBar_denominator_not_max :
    appBarDenominator unsortedApps = 1 ∧
    specAppDenominator unsortedApps = 5 ∧
    ¬ appBarDenominator unsortedApps = specAppDenominator unsortedApps := by
  refine ⟨rfl, ?_, ?_⟩ <;> decide

end OpenRecall
